import Mathlib

/-!
Verification of `data-import/bnetza_mastr/mastr_wind_download.py`.

The script downloads power-unit registrations from the MaStR SOAP registry and
persists them as semicolon-delimited CSV files.  This file gives a shallow
embedding of its data model and operations: a pandas `DataFrame` becomes an
explicit index column plus named data columns over string cells, a CSV file
becomes a list of lines, and the filesystem becomes a record of the four
output files.  The external collaborators (`sessions.py`, `config.py`, the
registry itself) are not part of src/ and are passed in as explicit function
parameters, modelled from the spec where noted.
-/

namespace Mastr

/-- Characters of a string with every double-quote character removed; the
character-level meaning of pandas `Series.str.replace` with pattern a single
double quote and empty replacement, as used on the `Standort` column. -/
def stripQuotesC : List Char → List Char
  | [] => []
  | c :: cs => if c = '"' then stripQuotesC cs else c :: stripQuotesC cs

/-- String wrapper for `stripQuotesC`. -/
def stripQuotes (s : String) : String :=
  String.mk (stripQuotesC s.data)

/-- A character is CSV-safe when it is neither the `;` delimiter, the `"`
quote character, nor a line break; QUOTE_MINIMAL quotes a field exactly when
it holds an unsafe character. -/
def safeChar (c : Char) : Bool :=
  !(c == ';' || c == '"' || c == '\n' || c == '\r')

/-- A field is CSV-safe when every character is, so `to_csv` writes it
verbatim. -/
def csvSafeB (s : String) : Bool :=
  s.data.all safeChar

/-- Double every double-quote character, the csv escaping used inside a quoted
field. -/
def escQuotes : List Char → List Char
  | [] => []
  | c :: cs => if c = '"' then '"' :: '"' :: escQuotes cs else c :: escQuotes cs

/-- One field, at character level, as `DataFrame.to_csv` emits it with the
default QUOTE_MINIMAL policy: verbatim when CSV-safe, otherwise wrapped in
quotes with inner quotes doubled. -/
def encodeFieldC (l : List Char) : List Char :=
  if l.all safeChar then l else '"' :: (escQuotes l ++ ['"'])

/-- String wrapper for `encodeFieldC`. -/
def encodeField (s : String) : String :=
  String.mk (encodeFieldC s.data)

/-- Join character-level fields with the `;` delimiter. -/
def joinSemiC : List (List Char) → List Char
  | [] => []
  | [f] => f
  | f :: fs => f ++ ';' :: joinSemiC fs

/-- Join string fields with the `;` delimiter. -/
def joinSemi (fields : List String) : String :=
  String.mk (joinSemiC (fields.map String.data))

/-- One CSV line for the given logical fields, each encoded as `to_csv` does. -/
def encodeLine (fields : List String) : String :=
  joinSemi (fields.map encodeField)

/-- Extend the first field of a partial parse with one leading character. -/
def consHead (c : Char) : List (List Char) → List (List Char)
  | [] => [[c]]
  | f :: fs => (c :: f) :: fs

/-- The field splitting `pandas.read_csv` performs on one record with
`sep=';'`, quote character `"` and `doublequote=True` (the defaults): outside
quotes, `;` separates fields and `"` opens a quoted region; inside quotes, a
doubled `""` stands for a literal quote and a single `"` closes the region. -/
def parseCsvC : Bool → List Char → List (List Char)
  | _, [] => [[]]
  | false, c :: cs =>
    if c = ';' then [] :: parseCsvC false cs
    else if c = '"' then parseCsvC true cs
    else consHead c (parseCsvC false cs)
  | true, c :: cs =>
    if c = '"' then
      match cs with
      | [] => [[]]
      | c₂ :: cs₂ =>
        if c₂ = '"' then consHead '"' (parseCsvC true cs₂)
        else parseCsvC false (c₂ :: cs₂)
    else consHead c (parseCsvC true cs)

/-- Prefix the first parsed field with already-collected quoted content. -/
def prependF (f : List Char) : List (List Char) → List (List Char)
  | [] => [f]
  | g :: gs => (f ++ g) :: gs

/-- The fields of one CSV record, quote-aware, as strings. -/
def parseFields (s : String) : List String :=
  (parseCsvC false s.data).map String.mk

/-- The default NA token set of `pandas.read_csv` (`na_filter` and
`keep_default_na` are left at their defaults by `read_power_units`): a field
equal to one of these strings — the empty field included — is read as NaN,
and declaring `dtype=str` does not suppress this parsing. -/
def naTokens : List String :=
  ["", "#N/A", "#N/A N/A", "#NA", "-1.#IND", "-1.#INF", "-1.#QNAN", "-NaN",
   "-nan", "1.#IND", "1.#INF", "1.#QNAN", "<NA>", "N/A", "NA", "NULL", "NaN",
   "None", "n/a", "nan", "null"]

/-- Pandas NA parsing of one field: an NA-like field is read back as NaN, all
other fields are kept verbatim.  This embedding represents the NaN cell by
the empty string: that is exactly how `to_csv` renders it (`na_rep=''`), it
equals no string this program ever compares a cell against, and — every
empty field itself being read as NaN — no distinct non-NA cell collides with
it.  The represented NaN differs from every written NA-like string, which is
what the round-trip results below make visible. -/
def naImage (s : String) : String :=
  if s ∈ naTokens then "" else s

/-- One data record as `read_power_units` returns it: quote-aware field
splitting followed by pandas NA parsing of every field. -/
def parseRow (s : String) : List String :=
  (parseFields s).map naImage

/-- A pandas DataFrame as the script handles it: a named index whose labels are
written as the first CSV column, named data columns, and per-row the index
label together with the string rendering of every cell. -/
structure Frame where
  indexName : String
  colNames : List String
  rows : List (String × List String)
deriving Repr, DecidableEq

/-- A DataFrame as `pandas.read_csv(..., index_col=False)` returns it: a fresh
unnamed range index, the header fields as column names, and string cells
(all columns of `read_power_units` are declared with dtype `str`). -/
structure RTable where
  colNames : List String
  rows : List (List String)
deriving Repr, DecidableEq

/-- The header line `to_csv` writes: the index name followed by the data
column names. -/
def headerLine (fr : Frame) : String :=
  encodeLine (fr.indexName :: fr.colNames)

/-- The data lines `to_csv` writes: per row, the index label followed by the
cells. -/
def dataLines (fr : Frame) : List String :=
  fr.rows.map (fun p => encodeLine (p.1 :: p.2))

/-- The lines `DataFrame.to_csv` emits for a frame, with or without the header
row. -/
def toCsvLines (fr : Frame) (header : Bool) : List String :=
  (if header then [headerLine fr] else []) ++ dataLines fr

/-- The python file-open mode used by `write_to_csv`: `'w'` or `'a'`. -/
inductive WriteMode where
  | w : WriteMode
  | a : WriteMode
deriving Repr, DecidableEq

/-- The effect of writing `new` lines to a file holding `old` (or absent,
`none`): mode `'w'` truncates or creates, mode `'a'` appends, creating the
file when absent. -/
def applyMode : WriteMode → Option (List String) → List String → List String
  | .w, _, new => new
  | .a, old, new => old.getD [] ++ new

/-- Source function `write_to_csv(csv_name, df, append)`: `to_csv` with mode
`'a'` and no header when `append` is true, mode `'w'` with header otherwise.
The argument `file` is the current content of the path (`none` when the file
does not exist); the result is the content afterwards. -/
def write_to_csv (file : Option (List String)) (df : Frame) (append : Bool) : List String :=
  applyMode (if append then .a else .w) file (toCsvLines df (!append))

/-- Errors surfaced by the embedded operations. -/
inductive Err where
  | fileNotFound : Err
  | emptyData : Err
  | keyError : String → Err
  | lookupFailed : String → Err
deriving Repr, DecidableEq

/-- Source function `read_power_units(csv_name)`: `pandas.read_csv` with
`header=0`, `sep=';'`, `index_col=False` and every declared column dtype
`str`.  The header line yields the column names (taken verbatim; the claims
never involve NA-like or empty header names).  Every data cell is the
quote-aware split field with pandas NA parsing applied: NA-like fields —
the empty field and the default NA tokens — are read back as NaN
(see `naImage`), not as the written string; all other fields stay verbatim
because the declared `str` dtype is the identity on text.  A missing file
raises (`FileNotFoundError`), an empty file raises (`EmptyDataError`). -/
def read_power_units : Option (List String) → Except Err RTable
  | none => .error .fileNotFound
  | some [] => .error .emptyData
  | some (h :: rest) => .ok ⟨parseFields h, rest.map parseRow⟩

/-- The per-column dtype schema `read_power_units` declares (all `str`), in
declaration order. -/
def powerUnitSchemaCols : List String :=
  ["lid", "EinheitMastrNummer", "Name", "Einheitart", "Einheittyp", "Standort",
   "Bruttoleistung", "Erzeugungsleistung", "EinheitBetriebsstatus",
   "Anlagenbetreiber", "EegMastrNummer", "KwkMastrNummer", "SpeMastrNummer",
   "GenMastrNummer", "BestandsanlageMastrNummer",
   "NichtVorhandenInMigriertenEinheiten", "version", "timestamp"]

/-- One unit as the bulk endpoint `GetGefilterteListeStromErzeuger` returns it,
with every attribute rendered as the string that ends up in the CSV cell. -/
structure RawUnit where
  EinheitMastrNummer : String
  Name : String
  Einheitart : String
  Einheittyp : String
  Standort : String
  Bruttoleistung : String
  Erzeugungsleistung : String
  EinheitBetriebsstatus : String
  Anlagenbetreiber : String
  EegMastrNummer : String
  KwkMastrNummer : String
  SpeMastrNummer : String
  GenMastrNummer : String
  BestandsanlageMastrNummer : String
  NichtVorhandenInMigriertenEinheiten : String
deriving Repr, DecidableEq

/-- The cells of a bulk-unit row in column order. -/
def rawCells (r : RawUnit) : List String :=
  [r.EinheitMastrNummer, r.Name, r.Einheitart, r.Einheittyp, r.Standort,
   r.Bruttoleistung, r.Erzeugungsleistung, r.EinheitBetriebsstatus,
   r.Anlagenbetreiber, r.EegMastrNummer, r.KwkMastrNummer, r.SpeMastrNummer,
   r.GenMastrNummer, r.BestandsanlageMastrNummer,
   r.NichtVorhandenInMigriertenEinheiten]

/-- The data-column names of a bulk-unit frame before the `version` and
`timestamp` columns are appended. -/
def unitCols : List String :=
  ["EinheitMastrNummer", "Name", "Einheitart", "Einheittyp", "Standort",
   "Bruttoleistung", "Erzeugungsleistung", "EinheitBetriebsstatus",
   "Anlagenbetreiber", "EegMastrNummer", "KwkMastrNummer", "SpeMastrNummer",
   "GenMastrNummer", "BestandsanlageMastrNummer",
   "NichtVorhandenInMigriertenEinheiten"]

/-- Modelled from the spec: the bulk operation `GetGefilterteListeStromErzeuger`
of the external registry, reached through the authenticated session that
`sessions.py` (absent from src/) builds; given a start offset and a limit it
returns the page of units at that offset, at most `limit` long, possibly
shorter on the final page. -/
abbrev BulkApi := Nat → Nat → List RawUnit

/-- Modelled from the spec: a keyed operation of the external registry
(`GetEinheitWind` or `GetAnlageEegWind`).  For an identifier that exists
upstream it returns the record as a key-value structure; for an identifier
that does not exist upstream it fails with a LookupError
(`Err.lookupFailed`), which the callers in src/ never catch. -/
abbrev KeyedApi := String → Except Err (List (String × String))

/-- Modelled from the spec: `datetime.datetime.now()` is read once per fetch;
the clock is indexed by the loop position of the fetch. -/
abbrev Clock := Nat → String

/-- The `Standort` sanitization inside `get_power_unit`: the row with every
double-quote character removed from its `Standort` field, other fields
untouched. -/
def sanitizeUnit (r : RawUnit) : RawUnit :=
  { r with Standort := stripQuotes r.Standort }

/-- The frame `get_power_unit` builds from a page of units: index named `lid`
with positional labels, the unit columns followed by the appended `version`
and `timestamp` columns, and `Standort` sanitized. -/
def unitFrame (raws : List RawUnit) (v ts : String) : Frame :=
  { indexName := "lid",
    colNames := unitCols ++ ["version", "timestamp"],
    rows := (raws.map sanitizeUnit).enum.map
      (fun p => (toString p.1, rawCells p.2 ++ [v, ts])) }

/-- Source function `get_power_unit(start_from, limit)`: fetch one page, wrap it
in a DataFrame, stamp `version` and `timestamp`, and strip double quotes from
`Standort`.  On an empty page the constructed DataFrame has no columns at
all, so the column access `power_unit['Standort']` raises `KeyError`. -/
def get_power_unit (api : BulkApi) (v ts : String) (start limit : Nat) :
    Except Err Frame :=
  if api start limit = [] then .error (.keyError "Standort")
  else .ok (unitFrame (api start limit) v ts)

/-- The single-row frame obtained by transposing a key-value structure:
`pd.DataFrame(list(s.items()))` followed by `set_index` on the key column and
`transpose` yields one row whose cells are the values, indexed by the former
value-column label `1`; `version` and `timestamp` are then appended. -/
def transposeFrame (v ts : String) (kv : List (String × String)) : Frame :=
  { indexName := "lid",
    colNames := kv.map Prod.fst ++ ["version", "timestamp"],
    rows := [("1", kv.map Prod.snd ++ [v, ts])] }

/-- The one data line `to_csv` emits for a transposed single-row frame: the
index label `1` followed by the structure's values and the stamps. -/
def singleRowLine (v ts : String) (kv : List (String × String)) : String :=
  encodeLine ("1" :: (kv.map Prod.snd ++ [v, ts]))

/-- Source function `get_power_unit_wind(mastr_unit_wind)`: call `GetEinheitWind`
and transpose the returned key-value structure into a single-row frame.  A
lookup failure from the client propagates uncaught; an empty structure makes
`set_index` fail on the missing key column. -/
def get_power_unit_wind (apiW : KeyedApi) (v ts : String) (id_ : String) :
    Except Err Frame :=
  match apiW id_ with
  | .error e => .error e
  | .ok [] => .error (.keyError "set_index")
  | .ok (kv₀ :: kvs) => .ok (transposeFrame v ts (kv₀ :: kvs))

/-- Source function `get_unit_wind_eeg(mastr_wind_eeg)`: call `GetAnlageEegWind`
and transpose the returned key-value structure into a single-row frame, same
shape as `get_power_unit_wind`. -/
def get_unit_wind_eeg (apiE : KeyedApi) (v ts : String) (id_ : String) :
    Except Err Frame :=
  match apiE id_ with
  | .error e => .error e
  | .ok [] => .error (.keyError "set_index")
  | .ok (kv₀ :: kvs) => .ok (transposeFrame v ts (kv₀ :: kvs))

/-- The four output files of one run, each `none` when absent:
`…_stromerzeuger.csv`, `…_stromerzeuger_wind.csv`, `…_windeinheit.csv`,
`…_windeeg.csv`. -/
structure FS where
  see : Option (List String)
  seeWind : Option (List String)
  wind : Option (List String)
  windEeg : Option (List String)
deriving Repr, DecidableEq

/-- First-occurrence duplicate dropping on indexed rows, comparing row content
only (the index label plays no part), as pandas `drop_duplicates` does on a
frame read with a fresh range index. -/
def dropDupAux (seen : List (List String)) :
    List (Nat × List String) → List (Nat × List String)
  | [] => []
  | p :: rest =>
    if p.2 ∈ seen then dropDupAux seen rest
    else p :: dropDupAux (p.2 :: seen) rest

/-- First-occurrence duplicate dropping on plain rows. -/
def dedupFirstAux (seen : List (List String)) :
    List (List String) → List (List String)
  | [] => []
  | r :: rest =>
    if r ∈ seen then dedupFirstAux seen rest
    else r :: dedupFirstAux (r :: seen) rest

/-- First-occurrence duplicate dropping starting from nothing seen. -/
def dedupFirst (l : List (List String)) : List (List String) :=
  dedupFirstAux [] l

/-- The row mask `power_unit.Einheittyp == 'Windeinheit'`: whether the cell in
column `ci` of a row is `Windeinheit`. -/
def windQ (ci : Nat) (r : List String) : Bool :=
  r.getD ci "" = "Windeinheit"

/-- The stage-2 row computation of `setup_power_unit_wind`: read rows carry
their positional index labels, `drop_duplicates` keeps each row content's
first occurrence, and then the rows whose `Einheittyp` cell (column `ci`)
is `Windeinheit` are kept. -/
def stage2Rows (t : RTable) (ci : Nat) : List (Nat × List String) :=
  (dropDupAux [] t.rows.enum).filter (fun p => windQ ci p.2)

/-- The frame `setup_power_unit_wind` writes: index renamed to `id` (the
labelled `reset_index()` call is a no-op, its result being discarded), the
read columns, and the stage-2 rows. -/
def stage2Frame (t : RTable) (ci : Nat) : Frame :=
  ⟨"id", t.colNames, (stage2Rows t ci).map (fun p => (toString p.1, p.2))⟩

/-- Source function `setup_power_unit_wind()`: when the wind subset file is
absent, read the stage-1 file, `drop_duplicates`, keep the rows whose
`Einheittyp` is `Windeinheit`, rename the index to `id` and write the subset
file; when the subset file is present, just read it back.  The result pairs
the filesystem afterwards with the returned DataFrame. -/
def setup_power_unit_wind (fs : FS) : Except Err (FS × RTable) :=
  match fs.seeWind with
  | some w =>
    match read_power_units (some w) with
    | .error e => .error e
    | .ok t => .ok (fs, t)
  | none =>
    match read_power_units fs.see with
    | .error e => .error e
    | .ok t =>
      match t.colNames.findIdx? (fun s => s = "Einheittyp") with
      | none => .error (.keyError "Einheittyp")
      | some ci =>
        .ok ({ fs with seeWind := some (write_to_csv none (stage2Frame t ci) false) },
             ⟨t.colNames, (stage2Rows t ci).map (fun p => p.2)⟩)

/-- Run `setup_power_unit_wind` a given number of times, threading the
filesystem. -/
def iterSetup : Nat → FS → Except Err FS
  | 0, fs => .ok fs
  | n + 1, fs =>
    match setup_power_unit_wind fs with
    | .error e => .error e
    | .ok p => iterSetup n p.1

/-- The offsets `range(0, total, limit)` iterates for a positive `limit`:
the multiples of `limit` below `total`. -/
def offsets (total limit : Nat) : List Nat :=
  (List.range ((total + limit - 1) / limit)).map (fun j => j * limit)

/-- The fetch-and-write loop body of `download_power_unit`: for each offset,
fetch the page and write it, appending exactly when the offset is positive. -/
def dlLoop (api : BulkApi) (v : String) (clk : Clock) (limit : Nat) :
    List Nat → Option (List String) → Except Err (Option (List String))
  | [], file => .ok file
  | off :: rest, file =>
    match get_power_unit api v (clk off) off limit with
    | .error e => .error e
    | .ok fr => dlLoop api v clk limit rest (some (write_to_csv file fr (decide (0 < off))))

/-- Source function `download_power_unit(power_unit_list_len, limit)`: iterate
the offsets of `range(0, power_unit_list_len, limit)` and fetch-and-write each
page into the stage-1 file; no file-presence check is made before entering
the loop. -/
def download_power_unit (api : BulkApi) (v : String) (clk : Clock)
    (total limit : Nat) (fs : FS) : Except Err FS :=
  match dlLoop api v clk limit (offsets total limit) fs.see with
  | .error e => .error e
  | .ok see' => .ok { fs with see := see' }

/-- The fetch-and-write loop body of `download_unit_wind`: iterate the
identifier list with its index `i`, appending exactly when `i > 0`
(`start_from` is the loop-local constant `0`). -/
def windLoop (apiW : KeyedApi) (v : String) (clk : Clock) :
    Nat → List String → Option (List String) → Except Err (Option (List String))
  | _, [], file => .ok file
  | i, id_ :: rest, file =>
    match get_power_unit_wind apiW v (clk i) id_ with
    | .error e => .error e
    | .ok fr => windLoop apiW v clk (i + 1) rest (some (write_to_csv file fr (decide (0 < i))))

/-- Source function `download_unit_wind()`: obtain the wind subset via
`setup_power_unit_wind`, extract the `EinheitMastrNummer` column as a list and
fetch-and-write each identifier into the wind-detail file; no presence check
is made on that file before entering the loop. -/
def download_unit_wind (apiW : KeyedApi) (v : String) (clk : Clock) (fs : FS) :
    Except Err FS :=
  match setup_power_unit_wind fs with
  | .error e => .error e
  | .ok (fs₁, t) =>
    match t.colNames.findIdx? (fun s => s = "EinheitMastrNummer") with
    | none => .error (.keyError "EinheitMastrNummer")
    | some ci =>
      match windLoop apiW v clk 0 (t.rows.map (fun r => r.getD ci "")) fs₁.wind with
      | .error e => .error e
      | .ok wind' => .ok { fs₁ with wind := wind' }

/-- The fetch-and-write loop body of `download_unit_wind_eeg`, additionally
returning the trace of identifiers fetched, in fetch order, one entry per
performed API call. -/
def eegLoop (apiE : KeyedApi) (v : String) (clk : Clock) :
    Nat → List String → Option (List String) →
    Except Err (Option (List String) × List String)
  | _, [], file => .ok (file, [])
  | i, id_ :: rest, file =>
    match get_unit_wind_eeg apiE v (clk i) id_ with
    | .error e => .error e
    | .ok fr =>
      match eegLoop apiE v clk (i + 1) rest (some (write_to_csv file fr (decide (0 < i)))) with
      | .error e => .error e
      | .ok (file', tr) => .ok (file', id_ :: tr)

/-- Source function `download_unit_wind_eeg()`: obtain the wind subset via
`setup_power_unit_wind`, extract the `EegMastrNummer` column as a list —
duplicates included, no deduplication — and fetch-and-write each identifier
in list order into the EEG file; the trace of fetched identifiers is
returned alongside the filesystem. -/
def download_unit_wind_eeg (apiE : KeyedApi) (v : String) (clk : Clock) (fs : FS) :
    Except Err (FS × List String) :=
  match setup_power_unit_wind fs with
  | .error e => .error e
  | .ok (fs₁, t) =>
    match t.colNames.findIdx? (fun s => s = "EegMastrNummer") with
    | none => .error (.keyError "EegMastrNummer")
    | some ci =>
      match eegLoop apiE v clk 0 (t.rows.map (fun r => r.getD ci "")) fs₁.windEeg with
      | .error e => .error e
      | .ok (eeg', tr) => .ok ({ fs₁ with windEeg := eeg' }, tr)

/-- Whether an `Except` computation finished without raising. -/
def runsOk {α : Type} : Except Err α → Bool
  | .ok _ => true
  | .error _ => false

/-- A first mock wind unit, with an embedded double quote in its location. -/
def u1 : RawUnit :=
  ⟨"SEE1", "W1", "Stromerzeugungseinheit", "Windeinheit", "Berlin \"Mitte\"",
   "3000", "2900", "InBetrieb", "ABR1", "EEG1", "", "", "GEN1", "", "0"⟩

/-- A second mock unit, a solar unit. -/
def u2 : RawUnit :=
  ⟨"SEE2", "S1", "Stromerzeugungseinheit", "Solareinheit", "Hamburg",
   "100", "95", "InBetrieb", "ABR2", "EEG2", "", "", "GEN2", "", "0"⟩

/-- A third mock unit, another wind unit. -/
def u3 : RawUnit :=
  ⟨"SEE3", "W2", "Stromerzeugungseinheit", "Windeinheit", "Kiel",
   "2000", "1900", "InBetrieb", "ABR3", "EEG1", "", "", "GEN3", "", "0"⟩

/-- The three mock units the mock registry serves. -/
def units3 : List RawUnit := [u1, u2, u3]

/-- A mock bulk registry holding exactly `units3`: a page is the slice at the
requested offset, at most `limit` long, so the final page is short and pages
past the end are empty. -/
def mockApi3 : BulkApi := fun start limit => (units3.drop start).take limit

/-- A constant mock clock. -/
def clk0 : Clock := fun _ => "T0"

/-- A mock keyed wind-detail registry knowing only `SEE1`. -/
def apiWmock : KeyedApi := fun id_ =>
  if id_ = "SEE1" then .ok [("Ergebniscode", "0"), ("EinheitMastrNummer", "SEE1")]
  else .error (.lookupFailed id_)

/-- The key-value structure the mock EEG registry returns for every known
identifier. -/
def kvF8 : String → List (String × String) := fun _ =>
  [("Ergebniscode", "0"), ("EegMastrNummer", "EEG1")]

/-- A mock keyed EEG registry knowing only `EEG1`. -/
def apiEmock : KeyedApi := fun id_ =>
  if id_ = "EEG1" then .ok (kvF8 id_) else .error (.lookupFailed id_)

/-- A mock stage-2 output file: two wind units that share the EEG identifier
`EEG1`. -/
def w2lines : List String :=
  ["lid;EinheitMastrNummer;EegMastrNummer", "0;SEE1;EEG1", "1;SEE2;EEG1"]

/-- A mock stage-1 output file with a duplicated row and three wind rows, for
the stage-2 derivation. -/
def see5lines : List String :=
  ["lid;Einheittyp;EegMastrNummer",
   "0;Windeinheit;EEG1",
   "1;Solareinheit;EEG2",
   "0;Windeinheit;EEG1",
   "1;Windeinheit;EEG3"]

/-- A filesystem on which every output file, in particular every checkpoint
file, is already present. -/
def fsAll : FS := ⟨some ["OLD"], some w2lines, some ["OLDW"], some ["OLDE"]⟩

/-- The empty filesystem: no output file exists yet. -/
def fsNone : FS := ⟨none, none, none, none⟩

/-- A filesystem holding only the mock stage-1 file, stage 2 not yet run. -/
def fs5 : FS := ⟨some see5lines, none, none, none⟩

/-- A filesystem on which stage 2 already produced `w2lines`, as stage 4
starts from it. -/
def fsW8 : FS := ⟨none, some w2lines, none, none⟩

/-- The table `read_power_units` parses out of `w2lines`. -/
def tW8 : RTable :=
  ⟨["lid", "EinheitMastrNummer", "EegMastrNummer"],
   [["0", "SEE1", "EEG1"], ["1", "SEE2", "EEG1"]]⟩

/-- The table `read_power_units` parses out of `see5lines`. -/
def t5 : RTable :=
  ⟨["lid", "Einheittyp", "EegMastrNummer"],
   [["0", "Windeinheit", "EEG1"],
    ["1", "Solareinheit", "EEG2"],
    ["0", "Windeinheit", "EEG1"],
    ["1", "Windeinheit", "EEG3"]]⟩

/-- A concrete one-row frame matching the `read_power_units` schema with no
NA-like cell, used to exercise the write-then-read round trip.  Its
`Standort` cell holds both the delimiter and embedded quotes, so `to_csv`
quotes and escapes it. -/
def frame4 : Frame :=
  ⟨"lid", unitCols ++ ["version", "timestamp"],
   [("0", ["SEE1", "W1", "Stromerzeugungseinheit", "Windeinheit",
           "Berlin \"Mitte\"; Haus 1",
           "3000", "2900", "InBetrieb", "ABR1", "EEG1", "KWK1", "SPE1", "GEN1",
           "BST1", "0", "v1", "T0"])]⟩

/-- A schema-matching one-row frame whose `KwkMastrNummer` cell is the string
`NA`, which pandas parses as NA on read-back. -/
def frameNA : Frame :=
  ⟨"lid", unitCols ++ ["version", "timestamp"],
   [("0", ["SEE1", "W1", "Stromerzeugungseinheit", "Windeinheit", "Berlin",
           "3000", "2900", "InBetrieb", "ABR1", "EEG1", "NA", "SPE1", "GEN1",
           "BST1", "0", "v1", "T0"])]⟩

/-- The table the program reads back from `frameNA`'s file: the written `NA`
cell has become NaN. -/
def tNA : RTable :=
  ⟨"lid" :: unitCols ++ ["version", "timestamp"],
   [["0", "SEE1", "W1", "Stromerzeugungseinheit", "Windeinheit", "Berlin",
     "3000", "2900", "InBetrieb", "ABR1", "EEG1", "", "SPE1", "GEN1",
     "BST1", "0", "v1", "T0"]]⟩

end Mastr

namespace Mastr

/- ## Helper lemmas about the CSV layer -/

theorem consHead_ne_nil (c : Char) (ll : List (List Char)) :
    consHead c ll ≠ [] := by
  cases ll <;> simp [consHead]

theorem parseCsv_false_semi (t : List Char) :
    parseCsvC false (';' :: t) = [] :: parseCsvC false t := rfl

theorem parseCsv_false_quote (t : List Char) :
    parseCsvC false ('"' :: t) = parseCsvC true t := rfl

theorem parseCsv_false_char (c : Char) (t : List Char) (h1 : c ≠ ';')
    (h2 : c ≠ '"') :
    parseCsvC false (c :: t) = consHead c (parseCsvC false t) := by
  simp [parseCsvC, h1, h2]

theorem parseCsv_true_quote_nil : parseCsvC true ['"'] = [[]] := rfl

theorem parseCsv_true_quote_quote (t : List Char) :
    parseCsvC true ('"' :: '"' :: t) = consHead '"' (parseCsvC true t) := rfl

theorem parseCsv_true_quote_char (c : Char) (t : List Char) (h : c ≠ '"') :
    parseCsvC true ('"' :: c :: t) = parseCsvC false (c :: t) := by
  simp [parseCsvC, h]

theorem parseCsv_true_char (c : Char) (t : List Char) (h : c ≠ '"') :
    parseCsvC true (c :: t) = consHead c (parseCsvC true t) := by
  rw [parseCsvC.eq_def]
  simp [h]

theorem parseCsv_ne_nil_aux :
    ∀ (n : Nat) (l : List Char) (mode : Bool), l.length ≤ n →
      parseCsvC mode l ≠ [] := by
  intro n
  induction n with
  | zero =>
    intro l mode hlen
    have hl : l = [] := List.eq_nil_of_length_eq_zero (Nat.le_zero.mp hlen)
    subst hl
    cases mode <;> simp [parseCsvC]
  | succ m ih =>
    intro l mode hlen
    cases l with
    | nil => cases mode <;> simp [parseCsvC]
    | cons c cs =>
      cases mode with
      | false =>
        by_cases h1 : c = ';'
        · subst h1
          rw [parseCsv_false_semi]
          simp
        · by_cases h2 : c = '"'
          · subst h2
            rw [parseCsv_false_quote]
            exact ih cs true (by simpa using hlen)
          · rw [parseCsv_false_char c cs h1 h2]
            exact consHead_ne_nil _ _
      | true =>
        by_cases h2 : c = '"'
        · subst h2
          cases cs with
          | nil => simp [parseCsv_true_quote_nil]
          | cons c₂ cs₂ =>
            by_cases h3 : c₂ = '"'
            · subst h3
              rw [parseCsv_true_quote_quote]
              exact consHead_ne_nil _ _
            · rw [parseCsv_true_quote_char c₂ cs₂ h3]
              refine ih (c₂ :: cs₂) false ?_
              simp at hlen ⊢
              omega
        · rw [parseCsv_true_char c cs h2]
          exact consHead_ne_nil _ _

theorem parseCsv_ne_nil (mode : Bool) (l : List Char) : parseCsvC mode l ≠ [] :=
  parseCsv_ne_nil_aux l.length l mode (le_refl _)

theorem consHead_prependF (c : Char) (f : List Char) (P : List (List Char)) :
    consHead c (prependF f P) = prependF (c :: f) P := by
  cases P <;> simp [consHead, prependF]

theorem prependF_nil (P : List (List Char)) (h : P ≠ []) :
    prependF [] P = P := by
  cases P with
  | nil => exact absurd rfl h
  | cons g gs => simp [prependF]

theorem prependF_cons_nil (f : List Char) (P : List (List Char)) :
    prependF f ([] :: P) = f :: P := by
  simp [prependF]

theorem all_safe_no_semi_quote {l : List Char} (h : l.all safeChar = true) :
    ∀ c ∈ l, c ≠ ';' ∧ c ≠ '"' := by
  intro c hc
  have hs := (List.all_eq_true.mp h) c hc
  unfold safeChar at hs
  constructor <;> (intro hEq; subst hEq; simp at hs)

theorem parseCsv_unquoted_safe (l : List Char)
    (h : ∀ c ∈ l, c ≠ ';' ∧ c ≠ '"') :
    parseCsvC false l = [l] := by
  induction l with
  | nil => rfl
  | cons c cs ih =>
    obtain ⟨h1, h2⟩ := h c (by simp)
    rw [parseCsv_false_char c cs h1 h2, ih (fun x hx => h x (by simp [hx]))]
    rfl

theorem parseCsv_unquoted_append (l t : List Char)
    (h : ∀ c ∈ l, c ≠ ';' ∧ c ≠ '"') :
    parseCsvC false (l ++ ';' :: t) = l :: parseCsvC false t := by
  induction l with
  | nil => simp [parseCsv_false_semi]
  | cons c cs ih =>
    obtain ⟨h1, h2⟩ := h c (by simp)
    rw [List.cons_append, parseCsv_false_char c _ h1 h2,
      ih (fun x hx => h x (by simp [hx]))]
    rfl

theorem parseCsv_quoted (f : List Char) :
    ∀ rest, rest.head? ≠ some '"' →
    parseCsvC true (escQuotes f ++ '"' :: rest)
      = prependF f (parseCsvC false rest) := by
  induction f with
  | nil =>
    intro rest hrest
    simp only [escQuotes, List.nil_append]
    cases rest with
    | nil => simp [parseCsv_true_quote_nil, parseCsvC, prependF]
    | cons r t =>
      have hr : r ≠ '"' := by
        intro hEq
        subst hEq
        simp at hrest
      rw [parseCsv_true_quote_char r t hr]
      exact (prependF_nil _ (parseCsv_ne_nil false (r :: t))).symm
  | cons c f' ih =>
    intro rest hrest
    by_cases hc : c = '"'
    · subst hc
      have he : escQuotes ('"' :: f') = '"' :: '"' :: escQuotes f' := by
        simp [escQuotes]
      rw [he, List.cons_append, List.cons_append, parseCsv_true_quote_quote,
        ih rest hrest, consHead_prependF]
    · have he : escQuotes (c :: f') = c :: escQuotes f' := by
        simp [escQuotes, hc]
      rw [he, List.cons_append, parseCsv_true_char c _ hc, ih rest hrest,
        consHead_prependF]

theorem parseCsv_joinEnc (ls : List (List Char)) (hne : ls ≠ []) :
    parseCsvC false (joinSemiC (ls.map encodeFieldC)) = ls := by
  induction ls with
  | nil => exact absurd rfl hne
  | cons f fs ih =>
    cases fs with
    | nil =>
      show parseCsvC false (joinSemiC [encodeFieldC f]) = [f]
      by_cases hsafe : f.all safeChar
      · rw [show joinSemiC [encodeFieldC f] = f by simp [joinSemiC, encodeFieldC, hsafe]]
        exact parseCsv_unquoted_safe f (all_safe_no_semi_quote hsafe)
      · rw [show joinSemiC [encodeFieldC f] = '"' :: (escQuotes f ++ '"' :: [])
            by simp [joinSemiC, encodeFieldC, hsafe]]
        rw [parseCsv_false_quote, parseCsv_quoted f [] (by simp)]
        simp [parseCsvC, prependF]
    | cons g gs =>
      have hj : joinSemiC ((f :: g :: gs).map encodeFieldC)
          = encodeFieldC f ++ ';' :: joinSemiC ((g :: gs).map encodeFieldC) := by
        simp [joinSemiC]
      rw [hj]
      by_cases hsafe : f.all safeChar
      · rw [show encodeFieldC f = f from if_pos hsafe]
        rw [parseCsv_unquoted_append f _ (all_safe_no_semi_quote hsafe)]
        rw [ih (by simp)]
      · rw [show encodeFieldC f = '"' :: (escQuotes f ++ ['"']) from if_neg hsafe]
        rw [List.cons_append, List.append_assoc]
        rw [show ['"'] ++ ';' :: joinSemiC ((g :: gs).map encodeFieldC)
            = '"' :: ';' :: joinSemiC ((g :: gs).map encodeFieldC) from rfl]
        rw [parseCsv_false_quote, parseCsv_quoted f _ (by simp)]
        rw [parseCsv_false_semi, prependF_cons_nil, ih (by simp)]

theorem map_eq_self_of {α : Type} (f : α → α) (l : List α)
    (h : ∀ x ∈ l, f x = x) : l.map f = l := by
  induction l with
  | nil => rfl
  | cons a as ih =>
    simp only [List.map_cons, h a (by simp), ih (fun x hx => h x (by simp [hx]))]

theorem parseFields_encodeLine (fields : List String) (hne : fields ≠ []) :
    parseFields (encodeLine fields) = fields := by
  unfold parseFields encodeLine joinSemi
  have hd : (String.mk (joinSemiC ((fields.map encodeField).map String.data))).data
      = joinSemiC ((fields.map String.data).map encodeFieldC) := by
    show joinSemiC ((fields.map encodeField).map String.data)
        = joinSemiC ((fields.map String.data).map encodeFieldC)
    rw [List.map_map, List.map_map]
    rfl
  rw [hd, parseCsv_joinEnc (fields.map String.data) (by simpa using hne)]
  rw [List.map_map]
  exact map_eq_self_of _ _ (fun x _ => rfl)

theorem naImage_id {s : String} (h : s ∉ naTokens) : naImage s = s := by
  simp [naImage, h]

/- ## C1 and C10: the Tabular Store write contract -/

/-- C1.  For every prior file content (including an absent file), a row-set
and the append flag: with `append = false`, `write_to_csv` creates or
overwrites the file with the header row followed by the data rows, whatever
was there before; with `append = true` it appends exactly the data rows —
the header line is not among what is written — to whatever content the file
had; in neither mode does the result depend on any inspection of the
existing contents beyond plain concatenation, i.e. no schema validation is
performed. -/
theorem claim_C1_write_to_csv_modes (file : Option (List String)) (df : Frame)
    (old : List String) :
    write_to_csv file df false = headerLine df :: dataLines df ∧
    write_to_csv (some old) df true = old ++ dataLines df ∧
    write_to_csv (some old) df true = old ++ write_to_csv none df true := by
  refine ⟨?_, ?_, ?_⟩ <;> simp [write_to_csv, applyMode, toCsvLines]

/-- C10.  Calling `write_to_csv` with `append = true` on a path with no
existing file does not fail: it silently creates the file holding exactly the
data rows — one line per row of the frame — and no header row. -/
theorem claim_C10_append_creates_headerless (df : Frame) :
    write_to_csv none df true = dataLines df ∧
    (write_to_csv none df true).length = df.rows.length ∧
    ∀ line ∈ write_to_csv none df true,
      ∃ p ∈ df.rows, line = encodeLine (p.1 :: p.2) := by
  refine ⟨?_, ?_, ?_⟩
  · simp [write_to_csv, applyMode, toCsvLines]
  · simp [write_to_csv, applyMode, toCsvLines, dataLines]
  · intro line hline
    have hm : line ∈ List.map (fun p => encodeLine (p.1 :: p.2)) df.rows := by
      simpa [write_to_csv, applyMode, toCsvLines, dataLines] using hline
    rcases List.mem_map.mp hm with ⟨p, hp, hline'⟩
    exact ⟨p, hp, hline'.symm⟩

/- ## C4: write-then-read round trip -/

theorem map_congr_on {α β : Type} (f g : α → β) (l : List α)
    (h : ∀ x ∈ l, f x = g x) : l.map f = l.map g := by
  induction l with
  | nil => rfl
  | cons a as ih =>
    simp only [List.map_cons, h a (by simp), ih (fun x hx => h x (by simp [hx]))]

set_option maxRecDepth 400000 in
/-- Counterexample to C4 as stated: the schema-matching one-row frame
`frameNA`, whose `KwkMastrNummer` cell holds the string `NA`, does not
round-trip: `read_power_units` parses the written `NA` field as NA — the
cell comes back as NaN (represented by the empty string), not as the written
value, and NaN is no `str` coercion of `NA`. -/
theorem claim_C4_counterexample :
    read_power_units (some (write_to_csv none frameNA false)) = .ok tNA ∧
    tNA.rows ≠ frameNA.rows.map (fun p => p.1 :: p.2) :=
  ⟨by rfl, by decide⟩

/-- C4 (amended).  Writing a row-set with the Tabular Store (`write_to_csv`,
`append = false`) and reading it back with the matching all-`str` schema of
`read_power_units` yields exactly the written table whenever no cell is
NA-like (neither empty nor one of pandas' default NA tokens): the stored
columns — the `lid` index column followed by the data columns — come back
unchanged in order, with no column added, dropped or reordered, and every
row comes back cell-for-cell verbatim, the declared `str` coercion being
the identity; fields holding the delimiter or quotes are quoted by `to_csv`
and unquoted again on read.  NA-like cells are instead read back as NaN
(see the counterexample), which is the one deviation from the round trip.
The rectangularity hypothesis merely states that the frame is the image of
an actual DataFrame, every row having one cell per column. -/
theorem claim_C4_roundtrip (fr : Frame) (file : Option (List String))
    (hschema : fr.indexName :: fr.colNames = powerUnitSchemaCols)
    (hrect : ∀ p ∈ fr.rows, p.2.length = fr.colNames.length)
    (hrows : ∀ p ∈ fr.rows, p.1 ∉ naTokens ∧ ∀ cell ∈ p.2, cell ∉ naTokens) :
    read_power_units (some (write_to_csv file fr false)) =
      .ok ⟨fr.indexName :: fr.colNames, fr.rows.map (fun p => p.1 :: p.2)⟩ := by
  have hwrite : write_to_csv file fr false = headerLine fr :: dataLines fr := by
    simp [write_to_csv, applyMode, toCsvLines]
  have h1 : parseFields (headerLine fr) = fr.indexName :: fr.colNames :=
    parseFields_encodeLine _ (by simp)
  have h2 : (dataLines fr).map parseRow = fr.rows.map (fun p => p.1 :: p.2) := by
    unfold dataLines
    rw [List.map_map]
    refine map_congr_on _ _ _ ?_
    intro p hp
    show parseRow (encodeLine (p.1 :: p.2)) = p.1 :: p.2
    unfold parseRow
    rw [parseFields_encodeLine _ (by simp)]
    exact map_eq_self_of _ _ (by
      intro f hf
      rcases List.mem_cons.mp hf with hf | hf
      · exact hf ▸ naImage_id (hrows p hp).1
      · exact naImage_id ((hrows p hp).2 f hf))
  rw [hwrite]
  simp [read_power_units, h1, h2]

set_option maxRecDepth 400000 in
/-- Witness for the amended C4 at a concrete one-row frame carrying the full
18-column schema, no NA-like cell, and a `Standort` holding both the
delimiter and embedded quotes. -/
theorem claim_C4_witness :
    (frame4.indexName :: frame4.colNames = powerUnitSchemaCols ∧
      (';' ∈ "Berlin \"Mitte\"; Haus 1".data ∧ '"' ∈ "Berlin \"Mitte\"; Haus 1".data)) ∧
    read_power_units (some (write_to_csv none frame4 false)) =
      .ok ⟨frame4.indexName :: frame4.colNames,
           frame4.rows.map (fun p => p.1 :: p.2)⟩ :=
  ⟨⟨by decide, by decide, by decide⟩,
   claim_C4_roundtrip frame4 none (by decide) (by decide) (by decide)⟩

/- ## C6: Standort sanitization -/

theorem stripQuotesC_eq_filter (l : List Char) :
    stripQuotesC l = l.filter (fun c => c ≠ '"') := by
  induction l with
  | nil => rfl
  | cons c cs ih =>
    by_cases hc : c = '"'
    · subst hc
      simp [stripQuotesC, ih]
    · simp [stripQuotesC, hc, ih]

theorem quote_not_mem_stripQuotesC (l : List Char) : '"' ∉ stripQuotesC l := by
  rw [stripQuotesC_eq_filter]
  intro h
  have := List.of_mem_filter h
  simp at this

/-- C6.  `get_power_unit` strips every double-quote character from the
`Standort` field of every fetched row before the page is handed to
`write_to_csv`: the page it returns is the fetched page with each row's
`Standort` replaced by the same text minus all double quotes — so the field
as written contains zero double-quote characters — and with every other
field of the row untouched. -/
theorem claim_C6_standort_sanitized (api : BulkApi) (v ts : String)
    (start limit : Nat) (raws : List RawUnit)
    (hapi : api start limit = raws) (hne : raws ≠ []) :
    get_power_unit api v ts start limit = .ok (unitFrame raws v ts) ∧
    (unitFrame raws v ts).rows =
      (raws.map sanitizeUnit).enum.map
        (fun p => (toString p.1, rawCells p.2 ++ [v, ts])) ∧
    ∀ r ∈ raws,
      ('"' ∉ (sanitizeUnit r).Standort.data) ∧
      (sanitizeUnit r).Standort.data = r.Standort.data.filter (fun c => c ≠ '"') ∧
      (sanitizeUnit r).EinheitMastrNummer = r.EinheitMastrNummer ∧
      (sanitizeUnit r).Name = r.Name ∧
      (sanitizeUnit r).Einheitart = r.Einheitart ∧
      (sanitizeUnit r).Einheittyp = r.Einheittyp ∧
      (sanitizeUnit r).Bruttoleistung = r.Bruttoleistung ∧
      (sanitizeUnit r).Erzeugungsleistung = r.Erzeugungsleistung ∧
      (sanitizeUnit r).EinheitBetriebsstatus = r.EinheitBetriebsstatus ∧
      (sanitizeUnit r).Anlagenbetreiber = r.Anlagenbetreiber ∧
      (sanitizeUnit r).EegMastrNummer = r.EegMastrNummer ∧
      (sanitizeUnit r).KwkMastrNummer = r.KwkMastrNummer ∧
      (sanitizeUnit r).SpeMastrNummer = r.SpeMastrNummer ∧
      (sanitizeUnit r).GenMastrNummer = r.GenMastrNummer ∧
      (sanitizeUnit r).BestandsanlageMastrNummer = r.BestandsanlageMastrNummer ∧
      (sanitizeUnit r).NichtVorhandenInMigriertenEinheiten
        = r.NichtVorhandenInMigriertenEinheiten := by
  refine ⟨?_, rfl, ?_⟩
  · subst hapi
    simp [get_power_unit, hne]
  · intro r _
    refine ⟨?_, ?_, rfl, rfl, rfl, rfl, rfl, rfl, rfl, rfl, rfl, rfl, rfl, rfl, rfl, rfl⟩
    · exact quote_not_mem_stripQuotesC r.Standort.data
    · exact stripQuotesC_eq_filter r.Standort.data

/-- Witness for C6: the first mock page holds `u1`, whose `Standort` contains
double quotes, and the fetched page carries it sanitized. -/
theorem claim_C6_witness :
    ('"' ∈ u1.Standort.data) ∧
    get_power_unit mockApi3 "v1" "T0" 0 1 = .ok (unitFrame [u1] "v1" "T0") ∧
    ∀ r ∈ [u1], '"' ∉ (sanitizeUnit r).Standort.data := by
  refine ⟨by decide, ?_, ?_⟩
  · exact (claim_C6_standort_sanitized mockApi3 "v1" "T0" 0 1 [u1] rfl
      (by decide)).1
  · intro r hr
    exact (((claim_C6_standort_sanitized mockApi3 "v1" "T0" 0 1 [u1] rfl
      (by decide)).2.2) r hr).1

/- ## C7: keyed fetches transpose to one row; lookup failures surface -/

/-- C7.  For every identifier passed to a keyed fetch: when the registry
client fails with a LookupError because the identifier does not exist
upstream, both `get_power_unit_wind` and `get_unit_wind_eeg` propagate that
failure rather than silently dropping the record; when it returns the
record's key-value structure, the result is exactly one row — the transpose
of that structure into a single-row table whose columns are the keys (plus
the appended `version` and `timestamp`) and whose sole row holds the
values. -/
theorem claim_C7_keyed_fetch (apiW apiE : KeyedApi) (v ts : String)
    (id_ : String) :
    (∀ e, apiW id_ = .error e → get_power_unit_wind apiW v ts id_ = .error e) ∧
    (∀ kv₀ kvs, apiW id_ = .ok (kv₀ :: kvs) →
      get_power_unit_wind apiW v ts id_ = .ok (transposeFrame v ts (kv₀ :: kvs)) ∧
      (transposeFrame v ts (kv₀ :: kvs)).rows.length = 1 ∧
      (transposeFrame v ts (kv₀ :: kvs)).colNames
        = (kv₀ :: kvs).map Prod.fst ++ ["version", "timestamp"] ∧
      (transposeFrame v ts (kv₀ :: kvs)).rows
        = [("1", (kv₀ :: kvs).map Prod.snd ++ [v, ts])]) ∧
    (∀ e, apiE id_ = .error e → get_unit_wind_eeg apiE v ts id_ = .error e) ∧
    (∀ kv₀ kvs, apiE id_ = .ok (kv₀ :: kvs) →
      get_unit_wind_eeg apiE v ts id_ = .ok (transposeFrame v ts (kv₀ :: kvs)) ∧
      (transposeFrame v ts (kv₀ :: kvs)).rows.length = 1) := by
  refine ⟨?_, ?_, ?_, ?_⟩
  · intro e he
    simp [get_power_unit_wind, he]
  · intro kv₀ kvs h
    exact ⟨by simp [get_power_unit_wind, h], rfl, rfl, rfl⟩
  · intro e he
    simp [get_unit_wind_eeg, he]
  · intro kv₀ kvs h
    exact ⟨by simp [get_unit_wind_eeg, h], rfl⟩

/-- Witness for C7: the mock keyed registries resolve `SEE1` and `EEG1` to
single-row tables and fail with a LookupError on an unknown identifier. -/
theorem claim_C7_witness :
    get_power_unit_wind apiWmock "v1" "T0" "SEE1"
      = .ok (transposeFrame "v1" "T0"
          [("Ergebniscode", "0"), ("EinheitMastrNummer", "SEE1")]) ∧
    (transposeFrame "v1" "T0"
      [("Ergebniscode", "0"), ("EinheitMastrNummer", "SEE1")]).rows.length = 1 ∧
    get_power_unit_wind apiWmock "v1" "T0" "NOPE"
      = .error (.lookupFailed "NOPE") ∧
    get_unit_wind_eeg apiEmock "v1" "T0" "EEG1"
      = .ok (transposeFrame "v1" "T0" (kvF8 "EEG1")) ∧
    get_unit_wind_eeg apiEmock "v1" "T0" "NOPE"
      = .error (.lookupFailed "NOPE") := by
  refine ⟨?_, ?_, ?_, ?_, ?_⟩
  · exact ((claim_C7_keyed_fetch apiWmock apiEmock "v1" "T0" "SEE1").2.1 _ _
      (by simp [apiWmock])).1
  · exact ((claim_C7_keyed_fetch apiWmock apiEmock "v1" "T0" "SEE1").2.1 _ _
      (by simp [apiWmock])).2.1
  · exact (claim_C7_keyed_fetch apiWmock apiEmock "v1" "T0" "NOPE").1 _
      (by simp [apiWmock])
  · exact ((claim_C7_keyed_fetch apiWmock apiEmock "v1" "T0" "EEG1").2.2.2 _ _
      (by simp [apiEmock, kvF8])).1
  · exact (claim_C7_keyed_fetch apiWmock apiEmock "v1" "T0" "NOPE").2.2.1 _
      (by simp [apiEmock])

/- ## C2 and C9: stage-1 pagination -/

theorem write_to_csv_false (file : Option (List String)) (fr : Frame) :
    write_to_csv file fr false = headerLine fr :: dataLines fr := by
  simp [write_to_csv, applyMode, toCsvLines]

theorem write_to_csv_true (L : List String) (fr : Frame) :
    write_to_csv (some L) fr true = L ++ dataLines fr := by
  simp [write_to_csv, applyMode, toCsvLines]

theorem get_power_unit_ok (api : BulkApi) (v ts : String) (start limit : Nat)
    (h : api start limit ≠ []) :
    get_power_unit api v ts start limit = .ok (unitFrame (api start limit) v ts) := by
  simp [get_power_unit, h]

theorem offsets_eq_cons (total limit : Nat) (hl : 0 < limit) (ht : 0 < total) :
    offsets total limit
      = 0 :: (List.range ((total + limit - 1) / limit - 1)).map
          (fun j => (j + 1) * limit) := by
  unfold offsets
  obtain ⟨k, hk⟩ : ∃ k, (total + limit - 1) / limit = k + 1 := by
    have h1 : 1 ≤ (total + limit - 1) / limit := by
      rw [Nat.le_div_iff_mul_le hl]
      omega
    exact ⟨(total + limit - 1) / limit - 1, by omega⟩
  rw [hk, List.range_succ_eq_map]
  simp [List.map_map, Nat.succ_mul, Nat.add_mul]

theorem mem_offsets (total limit o : Nat) (hl : 0 < limit) (ht : 0 < total) :
    o ∈ offsets total limit ↔ ∃ j, o = j * limit ∧ o < total := by
  unfold offsets
  simp only [List.mem_map, List.mem_range]
  constructor
  · rintro ⟨j, hj, rfl⟩
    refine ⟨j, rfl, ?_⟩
    have h2 : j + 1 ≤ (total + limit - 1) / limit := hj
    rw [Nat.le_div_iff_mul_le hl] at h2
    have hsm : (j + 1) * limit = j * limit + limit := by ring
    rw [hsm] at h2
    omega
  · rintro ⟨j, rfl, hlt⟩
    refine ⟨j, ?_, rfl⟩
    have h2 : (j + 1) * limit ≤ total + limit - 1 := by
      have hsm : (j + 1) * limit = j * limit + limit := by ring
      omega
    have := (Nat.le_div_iff_mul_le hl).mpr h2
    omega

theorem dlLoop_append (api : BulkApi) (v : String) (clk : Clock) (limit : Nat)
    (os : List Nat) (hpos : ∀ o ∈ os, 0 < o)
    (hne : ∀ o ∈ os, api o limit ≠ []) (L : List String) :
    dlLoop api v clk limit os (some L)
      = .ok (some (L ++ (os.map
          (fun o => dataLines (unitFrame (api o limit) v (clk o)))).flatten)) := by
  induction os generalizing L with
  | nil => simp [dlLoop]
  | cons o rest ih =>
    have ho : 0 < o := hpos o (by simp)
    have hapi : api o limit ≠ [] := hne o (by simp)
    have hd : decide (0 < o) = true := decide_eq_true ho
    simp only [dlLoop, get_power_unit_ok api v (clk o) o limit hapi, hd,
      write_to_csv_true]
    rw [ih (fun x hx => hpos x (by simp [hx])) (fun x hx => hne x (by simp [hx]))]
    simp

/-- C2.  For a positive expected total and page limit (and pages that are all
nonempty so that no fetch raises), `download_power_unit` iterates exactly the
multiples of `limit` below `total` as offsets, writes the offset-0 page to a
fresh file with a header row, and appends every later page without a header:
the stage-1 file afterwards is one header line followed by the data rows of
all pages in offset order. -/
theorem claim_C2_stage1_pagination (api : BulkApi) (v : String) (clk : Clock)
    (total limit : Nat) (fs : FS) (hl : 0 < limit) (ht : 0 < total)
    (hne : ∀ off ∈ offsets total limit, api off limit ≠ []) :
    download_power_unit api v clk total limit fs
      = .ok { fs with see := some (headerLine (unitFrame (api 0 limit) v (clk 0)) ::
            ((offsets total limit).map
              (fun off => dataLines (unitFrame (api off limit) v (clk off)))).flatten) } ∧
    ∀ o, o ∈ offsets total limit ↔ ∃ j, o = j * limit ∧ o < total := by
  have hcons := offsets_eq_cons total limit hl ht
  refine ⟨?_, fun o => mem_offsets total limit o hl ht⟩
  have h0mem : (0 : Nat) ∈ offsets total limit := by rw [hcons]; simp
  have h0 : api 0 limit ≠ [] := hne 0 h0mem
  have htail_pos : ∀ o ∈ (List.range ((total + limit - 1) / limit - 1)).map
      (fun j => (j + 1) * limit), 0 < o := by
    intro o hmo
    rcases List.mem_map.mp hmo with ⟨j, _, rfl⟩
    positivity
  have htail_ne : ∀ o ∈ (List.range ((total + limit - 1) / limit - 1)).map
      (fun j => (j + 1) * limit), api o limit ≠ [] := by
    intro o hmo
    exact hne o (by rw [hcons]; simp [hmo])
  unfold download_power_unit
  rw [hcons]
  have hd : decide ((0 : Nat) < 0) = false := by decide
  simp only [dlLoop, get_power_unit_ok api v (clk 0) 0 limit h0, hd,
    write_to_csv_false]
  rw [dlLoop_append api v clk limit _ htail_pos htail_ne]
  simp

set_option maxRecDepth 100000 in
/-- Witness for C2, the spec's scenario: a mock registry returning 3 units
across 2 pages with limit 2 produces a stage-1 file of exactly 4 lines — one
header plus 3 data rows — in which the header line occurs exactly once. -/
theorem claim_C2_witness :
    download_power_unit mockApi3 "v1" clk0 3 2 fsNone
      = .ok { fsNone with see := some (headerLine (unitFrame (mockApi3 0 2) "v1" (clk0 0)) ::
            ((offsets 3 2).map
              (fun off => dataLines (unitFrame (mockApi3 off 2) "v1" (clk0 off)))).flatten) } ∧
    (headerLine (unitFrame (mockApi3 0 2) "v1" (clk0 0)) ::
      ((offsets 3 2).map
        (fun off => dataLines (unitFrame (mockApi3 off 2) "v1" (clk0 off)))).flatten).length = 4 ∧
    (headerLine (unitFrame (mockApi3 0 2) "v1" (clk0 0)) ::
      ((offsets 3 2).map
        (fun off => dataLines (unitFrame (mockApi3 off 2) "v1" (clk0 off)))).flatten).count
      (headerLine (unitFrame (mockApi3 0 2) "v1" (clk0 0))) = 1 :=
  ⟨(claim_C2_stage1_pagination mockApi3 "v1" clk0 3 2 fsNone (by decide) (by decide)
      (by decide)).1,
   by decide, by decide⟩

theorem dlLoop_ok (api : BulkApi) (v : String) (clk : Clock) (limit : Nat)
    (os : List Nat) (hne : ∀ o ∈ os, api o limit ≠ []) :
    ∀ f, runsOk (dlLoop api v clk limit os f) = true := by
  induction os with
  | nil => intro f; simp [dlLoop, runsOk]
  | cons o rest ih =>
    intro f
    have hapi : api o limit ≠ [] := hne o (by simp)
    simp only [dlLoop, get_power_unit_ok api v (clk o) o limit hapi]
    exact ih (fun x hx => hne x (by simp [hx])) _

/-- C9 (amended).  A short but nonempty final page during stage-1 bulk
pagination is not an error: as long as every fetched page is nonempty — the
final one may hold fewer rows than the requested limit — the fetch-and-write
loop processes every page and terminates normally without raising.  (As
stated, with an empty page included, the claim fails: see the
counterexample.) -/
theorem claim_C9_short_page_ok (api : BulkApi) (v : String) (clk : Clock)
    (total limit : Nat) (fs : FS) (hl : 0 < limit)
    (hne : ∀ off ∈ offsets total limit, api off limit ≠ []) :
    runsOk (download_power_unit api v clk total limit fs) = true := by
  have hloop := dlLoop_ok api v clk limit (offsets total limit) hne fs.see
  unfold download_power_unit
  rcases hdl : dlLoop api v clk limit (offsets total limit) fs.see with e | s
  · rw [hdl] at hloop
    simp [runsOk] at hloop
  · simp [runsOk]

/-- Witness for C9: with 3 upstream units, limit 2 and expected total 3, the
final page holds a single row — fewer than the limit — and the download
terminates normally. -/
theorem claim_C9_witness :
    (0 < 2 ∧ (∀ off ∈ offsets 3 2, mockApi3 off 2 ≠ []) ∧
      (mockApi3 2 2).length < 2) ∧
    runsOk (download_power_unit mockApi3 "v1" clk0 3 2 fsNone) = true :=
  ⟨⟨by decide, by decide, by decide⟩,
   claim_C9_short_page_ok mockApi3 "v1" clk0 3 2 fsNone (by decide) (by decide)⟩

set_option maxRecDepth 100000 in
/-- Counterexample to C9 as stated: with 3 upstream units, limit 2 and an
expected total of 6, the upstream source has fewer units than the expected
total, the offset-4 page is empty, and the loop raises — `get_power_unit`
hits the missing `Standort` column of the empty frame — instead of
processing the page and terminating normally. -/
theorem claim_C9_counterexample :
    download_power_unit mockApi3 "v1" clk0 6 2 fsNone
      = .error (.keyError "Standort") := by
  rfl

/- ## C5: the stage-2 derivation -/

theorem dropDupAux_map_snd (l : List (Nat × List String))
    (seen : List (List String)) :
    (dropDupAux seen l).map Prod.snd = dedupFirstAux seen (l.map Prod.snd) := by
  induction l generalizing seen with
  | nil => rfl
  | cons p rest ih =>
    by_cases hp : p.2 ∈ seen
    · simp [dropDupAux, dedupFirstAux, hp, ih]
    · simp [dropDupAux, dedupFirstAux, hp, ih]

theorem dedupFirstAux_filter_congr (q : List String → Bool)
    (l : List (List String)) (s₁ s₂ : List (List String))
    (hagree : ∀ r, q r = true → (r ∈ s₁ ↔ r ∈ s₂)) :
    (dedupFirstAux s₁ l).filter q = (dedupFirstAux s₂ l).filter q := by
  induction l generalizing s₁ s₂ with
  | nil => rfl
  | cons r rest ih =>
    by_cases h1 : r ∈ s₁ <;> by_cases h2 : r ∈ s₂
    · simp only [dedupFirstAux, if_pos h1, if_pos h2]
      exact ih s₁ s₂ hagree
    · have hq : q r = false := by
        by_contra hq
        have := (hagree r (by simpa using hq)).mp h1
        exact h2 this
      simp only [dedupFirstAux, if_pos h1, if_neg h2, List.filter_cons, hq]
      refine ih s₁ (r :: s₂) ?_
      intro x hx
      rw [hagree x hx]
      constructor
      · intro h; exact List.mem_cons_of_mem r h
      · intro h
        rcases List.mem_cons.mp h with rfl | h
        · rw [hx] at hq; exact absurd hq (by simp)
        · exact h
    · have hq : q r = false := by
        by_contra hq
        have := (hagree r (by simpa using hq)).mpr h2
        exact h1 this
      simp only [dedupFirstAux, if_neg h1, if_pos h2, List.filter_cons, hq]
      refine ih (r :: s₁) s₂ ?_
      intro x hx
      rw [← hagree x hx]
      constructor
      · intro h
        rcases List.mem_cons.mp h with rfl | h
        · rw [hx] at hq; exact absurd hq (by simp)
        · exact h
      · intro h; exact List.mem_cons_of_mem r h
    · simp only [dedupFirstAux, if_neg h1, if_neg h2, List.filter_cons]
      have hagree' : ∀ x, q x = true → (x ∈ r :: s₁ ↔ x ∈ r :: s₂) := by
        intro x hx
        simp only [List.mem_cons]
        rw [hagree x hx]
      cases hq : q r
      · exact ih (r :: s₁) (r :: s₂) hagree'
      · simp only [ih (r :: s₁) (r :: s₂) hagree']

theorem dedupFirstAux_filter (q : List String → Bool) (l : List (List String))
    (seen : List (List String)) :
    dedupFirstAux seen (l.filter q) = (dedupFirstAux seen l).filter q := by
  induction l generalizing seen with
  | nil => rfl
  | cons r rest ih =>
    cases hq : q r
    · by_cases hr : r ∈ seen
      · simp [List.filter_cons, hq, dedupFirstAux, hr, ih seen]
      · simp only [List.filter_cons, hq, Bool.false_eq_true, if_false,
          dedupFirstAux, if_neg hr, hq, ih seen]
        refine dedupFirstAux_filter_congr q rest seen (r :: seen) ?_
        intro x hx
        constructor
        · intro h; exact List.mem_cons_of_mem r h
        · intro h
          rcases List.mem_cons.mp h with rfl | h
          · rw [hx] at hq; exact absurd hq (by simp)
          · exact h
    · by_cases hr : r ∈ seen
      · simp [List.filter_cons, hq, dedupFirstAux, hr, ih seen]
      · simp [List.filter_cons, hq, dedupFirstAux, hr, ih (r :: seen)]

theorem filter_snd_map_snd {α β : Type} (q : β → Bool) (l : List (α × β)) :
    (l.filter (fun p => q p.2)).map Prod.snd = (l.map Prod.snd).filter q := by
  induction l with
  | nil => rfl
  | cons p rest ih =>
    cases hq : q p.2 <;> simp [List.filter_cons, hq, ih]

theorem enumFrom_map_snd {α : Type} (l : List α) :
    ∀ n, (List.enumFrom n l).map Prod.snd = l := by
  induction l with
  | nil => intro n; rfl
  | cons a rest ih => intro n; simp [List.enumFrom, ih]

theorem stage2Rows_eq_dedup_filter (t : RTable) (ci : Nat) :
    (stage2Rows t ci).map Prod.snd = dedupFirst (t.rows.filter (windQ ci)) := by
  unfold stage2Rows dedupFirst
  rw [filter_snd_map_snd (windQ ci), dropDupAux_map_snd]
  have henum : t.rows.enum.map Prod.snd = t.rows := enumFrom_map_snd t.rows 0
  rw [henum, dedupFirstAux_filter]

theorem setup_after_write (fs' : FS) (h : String) (rest : List String)
    (hw : fs'.seeWind = some (h :: rest)) :
    setup_power_unit_wind fs' = .ok (fs', ⟨parseFields h, rest.map parseRow⟩) := by
  unfold setup_power_unit_wind
  rw [hw]
  rfl

/-- C5.  When the wind-subset file is absent, stage 2 derives from stage 1's
output exactly the rows whose `Einheittyp` is `Windeinheit` with
exact-duplicate rows removed — the code's `drop_duplicates`-then-filter
equals the claim's filter-then-dedup — writes them as a new file, and leaves
the stage-1 source file untouched; re-running stage 2 any positive number of
times afterwards yields the very same filesystem, hence the same row set
every time. -/
theorem claim_C5_stage2_filter_dedup (fs : FS) (t : RTable) (ci : Nat)
    (hw : fs.seeWind = none)
    (hr : read_power_units fs.see = .ok t)
    (hci : t.colNames.findIdx? (fun s => s = "Einheittyp") = some ci) :
    setup_power_unit_wind fs
      = .ok ({ fs with seeWind := some (write_to_csv none (stage2Frame t ci) false) },
             ⟨t.colNames, (stage2Rows t ci).map Prod.snd⟩) ∧
    (stage2Rows t ci).map Prod.snd = dedupFirst (t.rows.filter (windQ ci)) ∧
    ({ fs with seeWind := some (write_to_csv none (stage2Frame t ci) false) }).see
      = fs.see ∧
    ∀ n : Nat, iterSetup (n + 1) fs
      = .ok { fs with seeWind := some (write_to_csv none (stage2Frame t ci) false) } := by
  have hsetup : setup_power_unit_wind fs
      = .ok ({ fs with seeWind := some (write_to_csv none (stage2Frame t ci) false) },
             ⟨t.colNames, (stage2Rows t ci).map (fun p => p.2)⟩) := by
    unfold setup_power_unit_wind
    rw [hw]
    dsimp only
    rw [hr]
    dsimp only
    rw [hci]
  refine ⟨hsetup, stage2Rows_eq_dedup_filter t ci, rfl, ?_⟩
  set fs' : FS :=
    { fs with seeWind := some (write_to_csv none (stage2Frame t ci) false) } with hfs'
  have hlines : fs'.seeWind
      = some (headerLine (stage2Frame t ci) :: dataLines (stage2Frame t ci)) := by
    rw [hfs']
    simp [write_to_csv_false]
  have hsw := setup_after_write fs' (headerLine (stage2Frame t ci))
    (dataLines (stage2Frame t ci)) hlines
  have hstable : ∀ n, iterSetup n fs' = .ok fs' := by
    intro n
    induction n with
    | zero => rfl
    | succ m ihm =>
      simp only [iterSetup, hsw]
      exact ihm
  intro n
  simp only [iterSetup, hsetup]
  exact hstable n

set_option maxRecDepth 100000 in
/-- Witness for C5: the mock stage-1 file holds 4 rows, one an exact
duplicate; the derived wind subset holds 2 rows — the 3 wind rows minus the
duplicate — and a second run returns the same filesystem. -/
theorem claim_C5_witness :
    (read_power_units fs5.see = .ok t5 ∧
      (t5.rows.filter (windQ 1)).length = 3 ∧
      ((stage2Rows t5 1).map Prod.snd).length = 2) ∧
    (stage2Rows t5 1).map Prod.snd = dedupFirst (t5.rows.filter (windQ 1)) ∧
    iterSetup 2 fs5
      = .ok { fs5 with seeWind := some (write_to_csv none (stage2Frame t5 1) false) } :=
  ⟨⟨by rfl, by decide, by decide⟩,
   (claim_C5_stage2_filter_dedup fs5 t5 1 rfl (by rfl) (by rfl)).2.1,
   (claim_C5_stage2_filter_dedup fs5 t5 1 rfl (by rfl) (by rfl)).2.2.2 1⟩

/- ## C8: stage-4 EEG downloads, one fetch and one row per list entry -/

theorem get_unit_wind_eeg_ok (apiE : KeyedApi) (v ts id_ : String)
    (kv₀ : String × String) (kvs : List (String × String))
    (h : apiE id_ = .ok (kv₀ :: kvs)) :
    get_unit_wind_eeg apiE v ts id_ = .ok (transposeFrame v ts (kv₀ :: kvs)) := by
  simp [get_unit_wind_eeg, h]

theorem dataLines_transposeFrame (v ts : String) (kv : List (String × String)) :
    dataLines (transposeFrame v ts kv) = [singleRowLine v ts kv] := rfl

theorem eegLoop_append (apiE : KeyedApi) (v : String) (clk : Clock)
    (kvF : String → List (String × String)) (ids : List String) :
    ∀ i L, 1 ≤ i →
    (∀ id_ ∈ ids, apiE id_ = .ok (kvF id_) ∧ kvF id_ ≠ []) →
    eegLoop apiE v clk i ids (some L)
      = .ok (some (L ++ (List.enumFrom i ids).map
          (fun p => singleRowLine v (clk p.1) (kvF p.2))), ids) := by
  induction ids with
  | nil =>
    intro i L _ _
    simp [eegLoop]
  | cons id₀ rest ih =>
    intro i L hi hok
    obtain ⟨hapi, hkv⟩ := hok id₀ (by simp)
    obtain ⟨kv₀, kvs, hkveq⟩ : ∃ a b, kvF id₀ = a :: b := by
      cases hkv' : kvF id₀ with
      | nil => exact absurd hkv' hkv
      | cons a b => exact ⟨a, b, rfl⟩
    have hget : get_unit_wind_eeg apiE v (clk i) id₀
        = .ok (transposeFrame v (clk i) (kvF id₀)) := by
      rw [hkveq] at hapi ⊢
      exact get_unit_wind_eeg_ok apiE v (clk i) id₀ kv₀ kvs hapi
    have hd : decide (0 < i) = true := decide_eq_true (by omega)
    simp only [eegLoop, hget, hd, write_to_csv_true, dataLines_transposeFrame]
    rw [ih (i + 1) (L ++ [singleRowLine v (clk i) (kvF id₀)]) (by omega)
      (fun x hx => hok x (by simp [hx]))]
    simp [List.enumFrom]

/-- C8.  Stage 4 performs exactly one keyed EEG fetch and writes exactly one
row for every entry of the EEG-identifier list extracted from stage 2's
output, in list order and with no deduplication: the returned fetch trace is
the identifier list itself — duplicate identifiers are fetched once per
occurrence — and the written file holds one header line plus one data line
per list entry. -/
theorem claim_C8_eeg_no_dedup (apiE : KeyedApi) (v : String) (clk : Clock)
    (fs fs₁ : FS) (t : RTable) (ci : Nat) (ids : List String)
    (id₀ : String) (restIds : List String)
    (kvF : String → List (String × String))
    (hsetup : setup_power_unit_wind fs = .ok (fs₁, t))
    (hci : t.colNames.findIdx? (fun s => s = "EegMastrNummer") = some ci)
    (hids : t.rows.map (fun r => r.getD ci "") = ids)
    (hcons : ids = id₀ :: restIds)
    (hok : ∀ id_ ∈ ids, apiE id_ = .ok (kvF id_) ∧ kvF id_ ≠ []) :
    download_unit_wind_eeg apiE v clk fs
      = .ok ({ fs₁ with windEeg := some (headerLine (transposeFrame v (clk 0) (kvF id₀)) ::
            (List.enum ids).map (fun p => singleRowLine v (clk p.1) (kvF p.2))) },
         ids) ∧
    ((List.enum ids).map (fun p => singleRowLine v (clk p.1) (kvF p.2))).length
      = ids.length := by
  subst hcons
  obtain ⟨hapi, hkv⟩ := hok id₀ (by simp)
  obtain ⟨kv₀, kvs, hkveq⟩ : ∃ a b, kvF id₀ = a :: b := by
    cases hkv' : kvF id₀ with
    | nil => exact absurd hkv' hkv
    | cons a b => exact ⟨a, b, rfl⟩
  have hget : get_unit_wind_eeg apiE v (clk 0) id₀
      = .ok (transposeFrame v (clk 0) (kvF id₀)) := by
    rw [hkveq] at hapi ⊢
    exact get_unit_wind_eeg_ok apiE v (clk 0) id₀ kv₀ kvs hapi
  have hd : decide ((0 : Nat) < 0) = false := by decide
  constructor
  · unfold download_unit_wind_eeg
    simp only [hsetup, hci, hids]
    simp only [eegLoop, hget, hd, write_to_csv_false, dataLines_transposeFrame]
    rw [eegLoop_append apiE v clk kvF restIds 1
      (headerLine (transposeFrame v (clk 0) (kvF id₀))
        :: [singleRowLine v (clk 0) (kvF id₀)])
      (by omega) (fun x hx => hok x (by simp [hx]))]
    simp [List.enum, List.enumFrom]
  · simp

/-- Witness for C8, the spec's scenario: a stage-2 output with two wind units
carrying the duplicate EEG identifiers `EEG1` and `EEG1` leads to a fetch
trace of both occurrences — 2 fetches — and 2 written data rows. -/
theorem claim_C8_witness :
    download_unit_wind_eeg apiEmock "v1" clk0 fsW8
      = .ok ({ fsW8 with windEeg := some (headerLine (transposeFrame "v1" (clk0 0) (kvF8 "EEG1")) ::
            (List.enum ["EEG1", "EEG1"]).map
              (fun p => singleRowLine "v1" (clk0 p.1) (kvF8 p.2))) },
         ["EEG1", "EEG1"]) ∧
    ((List.enum ["EEG1", "EEG1"]).map
      (fun p => singleRowLine "v1" (clk0 p.1) (kvF8 p.2))).length = 2 ∧
    (["EEG1", "EEG1"] : List String).length = 2 :=
  ⟨(claim_C8_eeg_no_dedup apiEmock "v1" clk0 fsW8 fsW8 tW8 2 ["EEG1", "EEG1"]
      "EEG1" ["EEG1"] kvF8 (by rfl) (by rfl) (by rfl) (by rfl)
      (by
        intro id_ hid
        have h1 : id_ = "EEG1" := by simpa using hid
        subst h1
        exact ⟨rfl, by decide⟩)).1,
   by decide, by decide⟩

/- ## C3: checkpointing by file presence -/

theorem setup_wind_update (fs : FS) (w : Option (List String)) :
    setup_power_unit_wind { fs with wind := w }
      = (setup_power_unit_wind fs).map (fun p => ({ p.1 with wind := w }, p.2)) := by
  unfold setup_power_unit_wind
  cases hsw : fs.seeWind with
  | some wl =>
    cases hr : read_power_units (some wl) with
    | error e => simp [hsw, hr, Except.map]
    | ok t => simp [hsw, hr, Except.map]
  | none =>
    cases hr : read_power_units fs.see with
    | error e => simp [hsw, hr, Except.map]
    | ok t =>
      cases hci : t.colNames.findIdx? (fun s => s = "Einheittyp") with
      | none => simp [hsw, hr, hci, Except.map]
      | some ci => simp [hsw, hr, hci, Except.map]

theorem setup_windEeg_update (fs : FS) (w : Option (List String)) :
    setup_power_unit_wind { fs with windEeg := w }
      = (setup_power_unit_wind fs).map (fun p => ({ p.1 with windEeg := w }, p.2)) := by
  unfold setup_power_unit_wind
  cases hsw : fs.seeWind with
  | some wl =>
    cases hr : read_power_units (some wl) with
    | error e => simp [hsw, hr, Except.map]
    | ok t => simp [hsw, hr, Except.map]
  | none =>
    cases hr : read_power_units fs.see with
    | error e => simp [hsw, hr, Except.map]
    | ok t =>
      cases hci : t.colNames.findIdx? (fun s => s = "Einheittyp") with
      | none => simp [hsw, hr, hci, Except.map]
      | some ci => simp [hsw, hr, hci, Except.map]

theorem windLoop_overwrite (apiW : KeyedApi) (v : String) (clk : Clock)
    (ids : List String) (hne : ids ≠ []) (f₁ f₂ : Option (List String)) :
    windLoop apiW v clk 0 ids f₁ = windLoop apiW v clk 0 ids f₂ := by
  cases ids with
  | nil => exact absurd rfl hne
  | cons id₀ rest =>
    cases hget : get_power_unit_wind apiW v (clk 0) id₀ with
    | error e => simp [windLoop, hget]
    | ok fr =>
      simp only [windLoop, hget, show decide ((0 : Nat) < 0) = false from rfl,
        write_to_csv_false]

theorem eegLoop_overwrite (apiE : KeyedApi) (v : String) (clk : Clock)
    (ids : List String) (hne : ids ≠ []) (f₁ f₂ : Option (List String)) :
    eegLoop apiE v clk 0 ids f₁ = eegLoop apiE v clk 0 ids f₂ := by
  cases ids with
  | nil => exact absurd rfl hne
  | cons id₀ rest =>
    cases hget : get_unit_wind_eeg apiE v (clk 0) id₀ with
    | error e => simp [eegLoop, hget]
    | ok fr =>
      simp only [eegLoop, hget, show decide ((0 : Nat) < 0) = false from rfl,
        write_to_csv_false]

set_option maxRecDepth 400000 in
/-- Counterexample to C3 as stated: on a filesystem where every output file —
in particular the stage-1 checkpoint file — is already present,
`download_power_unit` still re-enters its fetch-and-write loop and replaces
the stage-1 file's content, which the two-state-machine reading (checkpoint
present ⇒ loop never re-entered) forbids. -/
theorem claim_C3_counterexample :
    download_power_unit mockApi3 "v1" clk0 3 2 fsAll
      = .ok { fsAll with see := some (headerLine (unitFrame (mockApi3 0 2) "v1" (clk0 0)) ::
          ((offsets 3 2).map
            (fun off => dataLines (unitFrame (mockApi3 off 2) "v1" (clk0 off)))).flatten) } ∧
    some (headerLine (unitFrame (mockApi3 0 2) "v1" (clk0 0)) ::
        ((offsets 3 2).map
          (fun off => dataLines (unitFrame (mockApi3 off 2) "v1" (clk0 off)))).flatten)
      ≠ fsAll.see :=
  ⟨by rfl, by decide⟩

/-- C3 (amended).  Only the stage-2 derivation `setup_power_unit_wind` is
checkpointed by file presence: when its output file is present it only reads
that file back — the filesystem is returned unchanged and the derivation is
not re-entered.  The three download workflows are not checkpointed: each
unconditionally re-enters its fetch-and-write loop and rebuilds its output
file from scratch, so its result is the same whatever the previous content
or presence of that output file (for the per-identifier loops, provided the
identifier list is nonempty; an empty list leaves the old file in place). -/
theorem claim_C3_checkpointing (fs : FS) :
    (∀ w t, fs.seeWind = some w → read_power_units (some w) = .ok t →
      setup_power_unit_wind fs = .ok (fs, t)) ∧
    (∀ (api : BulkApi) (v : String) (clk : Clock) (total limit : Nat)
        (s₁ s₂ : Option (List String)), 0 < limit → 0 < total →
      download_power_unit api v clk total limit { fs with see := s₁ }
        = download_power_unit api v clk total limit { fs with see := s₂ }) ∧
    (∀ (apiW : KeyedApi) (v : String) (clk : Clock) (fs₁ : FS) (t : RTable)
        (ci : Nat) (w₁ w₂ : Option (List String)),
      setup_power_unit_wind fs = .ok (fs₁, t) →
      t.colNames.findIdx? (fun s => s = "EinheitMastrNummer") = some ci →
      t.rows ≠ [] →
      download_unit_wind apiW v clk { fs with wind := w₁ }
        = download_unit_wind apiW v clk { fs with wind := w₂ }) ∧
    (∀ (apiE : KeyedApi) (v : String) (clk : Clock) (fs₁ : FS) (t : RTable)
        (ci : Nat) (e₁ e₂ : Option (List String)),
      setup_power_unit_wind fs = .ok (fs₁, t) →
      t.colNames.findIdx? (fun s => s = "EegMastrNummer") = some ci →
      t.rows ≠ [] →
      download_unit_wind_eeg apiE v clk { fs with windEeg := e₁ }
        = download_unit_wind_eeg apiE v clk { fs with windEeg := e₂ }) := by
  refine ⟨?_, ?_, ?_, ?_⟩
  · intro w t hw hr
    unfold setup_power_unit_wind
    rw [hw]
    dsimp only
    rw [hr]
  · intro api v clk total limit s₁ s₂ hl ht
    have hcons := offsets_eq_cons total limit hl ht
    unfold download_power_unit
    rw [hcons]
    cases hget : get_power_unit api v (clk 0) 0 limit with
    | error e => simp [dlLoop, hget]
    | ok fr =>
      simp only [dlLoop, hget, show decide ((0 : Nat) < 0) = false from rfl,
        write_to_csv_false]
  · intro apiW v clk fs₁ t ci w₁ w₂ hsetup hci hne
    have hids : t.rows.map (fun r => r.getD ci "") ≠ [] := by
      intro hmap
      exact hne (List.map_eq_nil_iff.mp hmap)
    unfold download_unit_wind
    rw [setup_wind_update fs w₁, setup_wind_update fs w₂, hsetup]
    simp only [Except.map]
    rw [hci]
    dsimp only
    rw [windLoop_overwrite apiW v clk _ hids w₁ w₂]
  · intro apiE v clk fs₁ t ci e₁ e₂ hsetup hci hne
    have hids : t.rows.map (fun r => r.getD ci "") ≠ [] := by
      intro hmap
      exact hne (List.map_eq_nil_iff.mp hmap)
    unfold download_unit_wind_eeg
    rw [setup_windEeg_update fs e₁, setup_windEeg_update fs e₂, hsetup]
    simp only [Except.map]
    rw [hci]
    dsimp only
    rw [eegLoop_overwrite apiE v clk _ hids e₁ e₂]

set_option maxRecDepth 400000 in
/-- Witness for the amended C3 at concrete inputs: with the stage-2 file
present, `setup_power_unit_wind` only reads it back; and each of the three
downloads produces the same result whether its output file previously held
stale content or did not exist. -/
theorem claim_C3_witness :
    setup_power_unit_wind fsAll = .ok (fsAll, tW8) ∧
    download_power_unit mockApi3 "v1" clk0 3 2 { fsAll with see := some ["OLD"] }
      = download_power_unit mockApi3 "v1" clk0 3 2 { fsAll with see := none } ∧
    download_unit_wind apiWmock "v1" clk0 { fsAll with wind := some ["OLDW"] }
      = download_unit_wind apiWmock "v1" clk0 { fsAll with wind := none } ∧
    download_unit_wind_eeg apiEmock "v1" clk0 { fsAll with windEeg := some ["OLDE"] }
      = download_unit_wind_eeg apiEmock "v1" clk0 { fsAll with windEeg := none } :=
  ⟨(claim_C3_checkpointing fsAll).1 w2lines tW8 rfl (by rfl),
   (claim_C3_checkpointing fsAll).2.1 mockApi3 "v1" clk0 3 2 (some ["OLD"]) none
     (by decide) (by decide),
   (claim_C3_checkpointing fsAll).2.2.1 apiWmock "v1" clk0 fsAll tW8 1
     (some ["OLDW"]) none (by rfl) (by rfl) (by decide),
   (claim_C3_checkpointing fsAll).2.2.2 apiEmock "v1" clk0 fsAll tW8 2
     (some ["OLDE"]) none (by rfl) (by rfl) (by decide)⟩

end Mastr
